import Mathlib

/-!
Verification of the grepx-mongo-libs core against its specification.

The development shallowly embeds the three core modules:
  * `src/src/core/cursor.py`       — `Cursor` (deferred operation dispatch and
    result materialisation),
  * `src/src/core/connection.py`   — `Connection` (driver-handle lifecycle),
  * `src/src/advanced/connection_pool.py` — `ConnectionPool` (bounded pool).

Python objects become Lean structures, mutation becomes explicit state
passing, exceptions become `Except`/`Option` error values, and the pymongo
driver becomes a stub record of per-operation results.  Machine behaviour
that the claims do not touch (timeout values, thread identity, the concrete
pymongo client options) is represented only as far as the control flow of
the source depends on it.
-/

set_option autoImplicit false

namespace GrepxMongo

/-! ## Driver-side value model

A pymongo write result object exposes `acknowledged` and, depending on the
operation, at most one of `inserted_count` / `modified_count` /
`deleted_count`.  Python's `hasattr` probe is modelled by `Option.isSome`. -/

structure WriteResult where
  acknowledged : Bool
  inserted_count : Option Int
  modified_count : Option Int
  deleted_count : Option Int
deriving DecidableEq, Repr

/-- The raw value stored in `Cursor._result` after a successful dispatch:
a lazy document iterator (`find` / `aggregate`, with `pending` the elements
not yet pulled), a single document-or-`None` (`find_one`), a write result
object, or the integer returned by `count_documents`. -/
inductive RawResult (Doc : Type) where
  | iter (pending : List Doc)
  | document (d : Option Doc)
  | write (w : WriteResult)
  | countVal (n : Int)
deriving DecidableEq, Repr

/-- Stub of the pymongo collection object obtained via
`Connection.collection(name)`: one result (or driver error, as a message)
per named method the dispatch in `Cursor.execute` can call. -/
structure Collection (Doc : Type) where
  find : Except String (List Doc)
  find_one : Except String (Option Doc)
  insert_one : Except String WriteResult
  insert_many : Except String WriteResult
  update_one : Except String WriteResult
  update_many : Except String WriteResult
  delete_one : Except String WriteResult
  delete_many : Except String WriteResult
  replace_one : Except String WriteResult
  aggregate : Except String (List Doc)
  count_documents : Except String Int

/-- Exceptions raised by the core (`src/core/exceptions.py`):
`InterfaceError` and `ProgrammingError`, with their message; `typeError`
marks states a dispatch-produced cursor can never be in (e.g. `next()` on a
non-iterator raw result). -/
inductive PyError where
  | interfaceError (msg : String)
  | programmingError (msg : String)
  | typeError
deriving DecidableEq, Repr

/-! ## Cursor (`src/src/core/cursor.py`)

`CursorState` is the mutable state of a `Cursor` object.  The document
factory (`self._document_factory`, defaulting to `dict_factory`, which
returns the document unchanged) is passed to the fetch functions as
`factory`; the owning connection contributes only its `closed` flag, read
by `execute`. -/

structure CursorState (Doc : Type) where
  collectionName : String
  operation : String
  connectionClosed : Bool
  executed : Bool
  result : Option (RawResult Doc)
deriving DecidableEq, Repr

/-- The `elif` chain of `Cursor.execute` (lines 54–78): maps the operation
name to the collection method it calls, `none` for the final `else` branch
that raises `ProgrammingError("Unknown operation: ...")`. -/
def dispatch {Doc : Type} (col : Collection Doc) (op : String) :
    Option (Except String (RawResult Doc)) :=
  if op = "find" then some (col.find.map RawResult.iter)
  else if op = "find_one" then some (col.find_one.map RawResult.document)
  else if op = "insert_one" then some (col.insert_one.map RawResult.write)
  else if op = "insert_many" then some (col.insert_many.map RawResult.write)
  else if op = "update_one" then some (col.update_one.map RawResult.write)
  else if op = "update_many" then some (col.update_many.map RawResult.write)
  else if op = "delete_one" then some (col.delete_one.map RawResult.write)
  else if op = "delete_many" then some (col.delete_many.map RawResult.write)
  else if op = "replace_one" then some (col.replace_one.map RawResult.write)
  else if op = "aggregate" then some (col.aggregate.map RawResult.iter)
  else if op = "count_documents" then some (col.count_documents.map RawResult.countVal)
  else none

/-- `Cursor.execute` (lines 43–84).  Returns the state after the call, the
exception raised (if any), and the list of driver methods invoked (used to
express the exactly-once guarantee).  On an exception the state is the
input state: in the source, `self._result` is assigned only when the
driver call returned and `self._executed = True` only after the dispatch
succeeded.  An unknown operation raises `ProgrammingError` inside the
`try`, which the blanket `except` re-wraps as `Operation failed: ...`. -/
def Cursor.execute {Doc : Type} (col : Collection Doc) (c : CursorState Doc) :
    CursorState Doc × Option PyError × List String :=
  if c.executed then (c, none, [])
  else if c.connectionClosed then
    (c, some (PyError.interfaceError "Connection is closed"), [])
  else
    match dispatch col c.operation with
    | some (Except.ok r) =>
        ({ c with result := some r, executed := true }, none, [c.operation])
    | some (Except.error e) =>
        (c, some (PyError.programmingError ("Operation failed: " ++ e)), [c.operation])
    | none =>
        (c, some (PyError.programmingError
            ("Operation failed: Unknown operation: " ++ c.operation)), [])

/-- What a fetch call hands back for one slot: the Python `None`, a
factory-mapped document, or the raw result object returned unmapped (the
`# For other operations, return the result object` branch). -/
inductive FetchedValue (Doc Out : Type) where
  | pynone
  | mapped (o : Out)
  | raw (r : RawResult Doc)
deriving DecidableEq, Repr

/-- `Cursor.fetchone` (lines 86–107).  Auto-executes when not yet executed;
then: `find_one` maps the stored document through the factory (`None` stays
`None`); `find` pulls the next iterator element and maps it, `None` at
exhaustion; every other kind returns the raw result object.  The
`typeError` arms are unreachable for a cursor executed through `dispatch`,
whose stored result always matches the operation kind. -/
def Cursor.fetchone {Doc Out : Type} (col : Collection Doc) (factory : Doc → Out)
    (c : CursorState Doc) : CursorState Doc × Except PyError (FetchedValue Doc Out) :=
  match (if c.executed then (c, none, ([] : List String)) else Cursor.execute col c) with
  | (c1, some e, _) => (c1, Except.error e)
  | (c1, none, _) =>
    if c1.operation = "find_one" then
      match c1.result with
      | some (RawResult.document none) => (c1, Except.ok FetchedValue.pynone)
      | some (RawResult.document (some d)) =>
          (c1, Except.ok (FetchedValue.mapped (factory d)))
      | none => (c1, Except.ok FetchedValue.pynone)
      | some _ => (c1, Except.error PyError.typeError)
    else if c1.operation = "find" then
      match c1.result with
      | none => (c1, Except.ok FetchedValue.pynone)
      | some (RawResult.iter []) => (c1, Except.ok FetchedValue.pynone)
      | some (RawResult.iter (d :: rest)) =>
          ({ c1 with result := some (RawResult.iter rest) },
            Except.ok (FetchedValue.mapped (factory d)))
      | some _ => (c1, Except.error PyError.typeError)
    else
      match c1.result with
      | some r => (c1, Except.ok (FetchedValue.raw r))
      | none => (c1, Except.ok FetchedValue.pynone)

/-- `Cursor.fetchmany` (lines 109–130): for `find`, pulls up to `size`
elements off the iterator and factory-maps them; for `find_one`, wraps the
`fetchone` value in a singleton list unless it is `None`; every other kind
returns the empty list. -/
def Cursor.fetchmany {Doc Out : Type} (col : Collection Doc) (factory : Doc → Out)
    (size : Nat) (c : CursorState Doc) :
    CursorState Doc × Except PyError (List (FetchedValue Doc Out)) :=
  match (if c.executed then (c, none, ([] : List String)) else Cursor.execute col c) with
  | (c1, some e, _) => (c1, Except.error e)
  | (c1, none, _) =>
    if c1.operation = "find" then
      match c1.result with
      | none => (c1, Except.ok [])
      | some (RawResult.iter xs) =>
          ({ c1 with result := some (RawResult.iter (xs.drop size)) },
            Except.ok ((xs.take size).map (fun d => FetchedValue.mapped (factory d))))
      | some _ => (c1, Except.error PyError.typeError)
    else if c1.operation = "find_one" then
      match Cursor.fetchone col factory c1 with
      | (c2, Except.error e) => (c2, Except.error e)
      | (c2, Except.ok FetchedValue.pynone) => (c2, Except.ok [])
      | (c2, Except.ok v) => (c2, Except.ok [v])
    else (c1, Except.ok [])

/-- `Cursor.fetchall` (lines 132–149): for `find`, drains the iterator and
factory-maps every element; for `find_one`, like `fetchmany`; every other
kind returns the empty list. -/
def Cursor.fetchall {Doc Out : Type} (col : Collection Doc) (factory : Doc → Out)
    (c : CursorState Doc) :
    CursorState Doc × Except PyError (List (FetchedValue Doc Out)) :=
  match (if c.executed then (c, none, ([] : List String)) else Cursor.execute col c) with
  | (c1, some e, _) => (c1, Except.error e)
  | (c1, none, _) =>
    if c1.operation = "find" then
      match c1.result with
      | none => (c1, Except.ok [])
      | some (RawResult.iter xs) =>
          ({ c1 with result := some (RawResult.iter []) },
            Except.ok (xs.map (fun d => FetchedValue.mapped (factory d))))
      | some _ => (c1, Except.error PyError.typeError)
    else if c1.operation = "find_one" then
      match Cursor.fetchone col factory c1 with
      | (c2, Except.error e) => (c2, Except.error e)
      | (c2, Except.ok FetchedValue.pynone) => (c2, Except.ok [])
      | (c2, Except.ok v) => (c2, Except.ok [v])
    else (c1, Except.ok [])

/-- `Cursor.rowcount` (lines 178–195).  `none` models the `AttributeError`
Python would raise probing a result object of the wrong shape (unreachable
for a dispatch-produced cursor). -/
def Cursor.rowcount {Doc : Type} (c : CursorState Doc) : Option Int :=
  if ¬ c.executed then some (-1)
  else if c.operation = "insert_one" ∨ c.operation = "update_one" ∨
      c.operation = "delete_one" ∨ c.operation = "replace_one" then
    match c.result with
    | some (RawResult.write w) => some (if w.acknowledged then 1 else 0)
    | _ => none
  else if c.operation = "insert_many" ∨ c.operation = "update_many" ∨
      c.operation = "delete_many" then
    match c.result with
    | some (RawResult.write w) =>
        some (match w.inserted_count with
          | some n => n
          | none =>
            match w.modified_count with
            | some n => n
            | none =>
              match w.deleted_count with
              | some n => n
              | none => 0)
    | _ => none
  else if c.operation = "count_documents" then
    match c.result with
    | some (RawResult.countVal n) => some n
    | _ => none
  else some (-1)

/-! ## Connection (`src/src/core/connection.py`)

`ConnState` is the mutable state of a `Connection`: the driver handle
(`self._client`, `None` until connected), the database reference
(`self._db`) and the closed flag.  Handles and database references are
identified by numbers; `Connection.connect` models the success path of the
source (pymongo importable, server reachable), taking the fresh handle and
database ids as arguments. -/

structure ConnState where
  client : Option Nat
  db : Option Nat
  closed : Bool
deriving DecidableEq, Repr

/-- `Connection.connect` (lines 84–152, success path): returns immediately
when a handle already exists; otherwise stores a fresh client handle and a
database reference.  It never touches `self._closed`. -/
def Connection.connect (h d : Nat) (s : ConnState) : ConnState :=
  if s.client.isSome then s
  else { s with client := some h, db := some d }

/-- `Connection.close` (lines 154–160): releases the handle and database
reference when a handle exists, and unconditionally sets the closed flag. -/
def Connection.close (s : ConnState) : ConnState :=
  if s.client.isSome then { client := none, db := none, closed := true }
  else { s with closed := true }

/-- `Connection.execute` (lines 167–172): raises `InterfaceError` when the
connection is closed or has no database reference; otherwise returns a
fresh, unexecuted cursor over the given collection and operation. -/
def Connection.executeOp (s : ConnState) (collectionName op : String) :
    Except PyError (CursorState Unit) :=
  if s.closed ∨ s.db.isNone then
    Except.error (PyError.interfaceError "Connection is closed")
  else
    Except.ok { collectionName := collectionName, operation := op,
                connectionClosed := false, executed := false, result := none }

/-- `Connection.collection` (lines 174–178): name of the requested
collection, or `InterfaceError` when closed / not connected. -/
def Connection.collectionAcc (s : ConnState) (name : String) : Except PyError String :=
  if s.closed ∨ s.db.isNone then
    Except.error (PyError.interfaceError "Connection is closed")
  else Except.ok name

/-- `Connection.database` property (lines 180–185). -/
def Connection.databaseAcc (s : ConnState) : Except PyError Nat :=
  if s.closed ∨ s.db.isNone then
    Except.error (PyError.interfaceError "Connection is closed")
  else
    match s.db with
    | some d => Except.ok d
    | none => Except.error (PyError.interfaceError "Connection is closed")

/-- `Connection.client` property (lines 187–192). -/
def Connection.clientAcc (s : ConnState) : Except PyError Nat :=
  if s.closed ∨ s.client.isNone then
    Except.error (PyError.interfaceError "Connection is closed")
  else
    match s.client with
    | some h => Except.ok h
    | none => Except.error (PyError.interfaceError "Connection is closed")

/-- A lifecycle call on a `Connection` (the two mutating methods). -/
inductive ConnOp where
  | connectOp (h d : Nat)
  | closeOp
deriving Repr

/-- Apply one lifecycle call. -/
def ConnState.stepOp (s : ConnState) (op : ConnOp) : ConnState :=
  match op with
  | ConnOp.connectOp h d => Connection.connect h d s
  | ConnOp.closeOp => Connection.close s

/-- Apply a sequence of lifecycle calls, first element first. -/
def ConnState.runOps (s : ConnState) (ops : List ConnOp) : ConnState :=
  ops.foldl ConnState.stepOp s

/-! ## ConnectionPool (`src/src/advanced/connection_pool.py`)

`PoolState` is the state of a `ConnectionPool`: the idle FIFO queue
(`self._pool`, a `Queue` of capacity `maxconn`, head = next element
`get` returns), the live-connection counter (`self._created_connections`,
an `Int` because `putconn` decrements unconditionally), the closed flag,
and a counter supplying fresh connection ids.  Pooled connections are
identified by the `Nat` id they were created with; their health is an
environment parameter of the operations (`alive c` — the ping in `getconn`
succeeds; `connClosed c` — `conn.closed` reports true in `putconn`).
`Connection(...)` construction plus `conn.connect()` inside
`_create_connection` is modelled as always succeeding (the claims address
the pool's own control flow, not driver outages). -/

structure PoolState where
  maxconn : Nat
  pool : List Nat
  created : Int
  closed : Bool
  nextId : Nat
deriving DecidableEq, Repr

/-- Errors a pool operation can raise: `InterfaceError`, `OperationalError`
(`src/core/exceptions.py`), or the `queue.Empty` a timed-out
`Queue.get` raises. -/
inductive PoolErr where
  | interfaceError (msg : String)
  | operationalError (msg : String)
  | empty
deriving DecidableEq, Repr

/-- `ConnectionPool._create_connection` (lines 65–86): under the lock,
raises if the pool is closed, raises `OperationalError` when the counter
has reached `maxconn`, otherwise creates and connects a fresh connection,
increments the counter and returns the connection.  No state is mutated on
the raising paths. -/
def ConnectionPool.createConnection (s : PoolState) :
    Except PoolErr (PoolState × Nat) :=
  if s.closed then Except.error (PoolErr.interfaceError "Pool is closed")
  else if (s.maxconn : Int) ≤ s.created then
    Except.error (PoolErr.operationalError "Maximum number of connections reached")
  else
    Except.ok ({ s with created := s.created + 1, nextId := s.nextId + 1 }, s.nextId)

/-- The `for _ in range(minconn): self._create_connection()` loop of
`ConnectionPool.__init__` (lines 61–63).  The connection returned by each
`_create_connection` call is discarded — the source never enqueues it. -/
def ConnectionPool.initLoop : Nat → PoolState → Except PoolErr PoolState
  | 0, s => Except.ok s
  | n + 1, s =>
    match ConnectionPool.createConnection s with
    | Except.ok (s', _) => ConnectionPool.initLoop n s'
    | Except.error e => Except.error e

/-- `ConnectionPool.__init__` (lines 17–63): empty queue of capacity
`maxconn`, zero counter, open pool, then the initial-connection loop. -/
def ConnectionPool.mkPool (minconn maxconn : Nat) : Except PoolErr PoolState :=
  ConnectionPool.initLoop minconn
    { maxconn := maxconn, pool := [], created := 0, closed := false, nextId := 0 }

/-- `ConnectionPool.getconn` (lines 88–120), sequential semantics (each
call runs atomically; a `Queue.get` on an empty queue raises `Empty` after
its timeout since no concurrent producer can fill it mid-call).  Returns
the state after the call and the connection obtained or the exception
raised.  The dead-idle path hands the connection taken from the queue to
`_create_connection` without closing it or decrementing the counter, and
propagates that call's `OperationalError` when the pool is at capacity. -/
def ConnectionPool.getconn (alive : Nat → Bool) (s : PoolState) :
    PoolState × Except PoolErr Nat :=
  if s.closed then (s, Except.error (PoolErr.interfaceError "Pool is closed"))
  else
    match s.pool with
    | c :: rest =>
      if alive c then ({ s with pool := rest }, Except.ok c)
      else
        match ConnectionPool.createConnection { s with pool := rest } with
        | Except.ok (s2, c2) => (s2, Except.ok c2)
        | Except.error e => ({ s with pool := rest }, Except.error e)
    | [] =>
      match ConnectionPool.createConnection s with
      | Except.ok (s2, c2) => (s2, Except.ok c2)
      | Except.error (PoolErr.operationalError _) => (s, Except.error PoolErr.empty)
      | Except.error e => (s, Except.error e)

/-- What `ConnectionPool.putconn` did with the returned connection. -/
inductive PutOutcome where
  | closedOutright
  | droppedClosed
  | requeued
  | closedFull
deriving DecidableEq, Repr

/-- `ConnectionPool.putconn` (lines 122–139): on a closed pool, close the
connection and return; on a connection reporting itself closed, decrement
the counter; otherwise `put_nowait` it back — a Python `Queue` of maxsize
`maxconn` raises `Full` exactly when `0 < maxconn ≤ qsize`, in which case
the connection is closed and the counter decremented. -/
def ConnectionPool.putconn (connClosed : Nat → Bool) (s : PoolState) (conn : Nat) :
    PoolState × PutOutcome :=
  if s.closed then (s, PutOutcome.closedOutright)
  else if connClosed conn then
    ({ s with created := s.created - 1 }, PutOutcome.droppedClosed)
  else if s.maxconn = 0 ∨ s.pool.length < s.maxconn then
    ({ s with pool := s.pool ++ [conn] }, PutOutcome.requeued)
  else
    ({ s with created := s.created - 1 }, PutOutcome.closedFull)

/-- `ConnectionPool.closeall` (lines 141–153): mark closed, drain and close
every idle connection, reset the counter to zero. -/
def ConnectionPool.closeall (s : PoolState) : PoolState :=
  { s with closed := true, pool := [], created := 0 }

/-- One public pool call, with its environment (connection health as seen
by that call). -/
inductive PoolOp where
  | acquire (alive : Nat → Bool)
  | release (connClosed : Nat → Bool) (conn : Nat)
  | closeAll

/-- State reached after one pool call (exceptions leave the state the call
produced up to the raise). -/
def PoolState.step (s : PoolState) (op : PoolOp) : PoolState :=
  match op with
  | PoolOp.acquire alive => (ConnectionPool.getconn alive s).1
  | PoolOp.release connClosed conn => (ConnectionPool.putconn connClosed s conn).1
  | PoolOp.closeAll => ConnectionPool.closeall s

/-- State after a sequence of pool calls, first element first. -/
def PoolState.run (s : PoolState) (ops : List PoolOp) : PoolState :=
  ops.foldl PoolState.step s

/-! ## Concrete driver stubs (used by counterexamples and witnesses) -/

/-- An acknowledged write result exposing only `inserted_count = 3`. -/
def wIns3 : WriteResult :=
  { acknowledged := true, inserted_count := some 3, modified_count := none,
    deleted_count := none }

/-- An acknowledged write result exposing no count attribute. -/
def wAckOnly : WriteResult :=
  { acknowledged := true, inserted_count := none, modified_count := none,
    deleted_count := none }

/-- A driver stub over `Nat` documents on which every method succeeds. -/
def colStub : Collection Nat where
  find := Except.ok [5, 6]
  find_one := Except.ok (some 7)
  insert_one := Except.ok wAckOnly
  insert_many := Except.ok wIns3
  update_one := Except.ok wAckOnly
  update_many := Except.ok wIns3
  delete_one := Except.ok wAckOnly
  delete_many := Except.ok wIns3
  replace_one := Except.ok wAckOnly
  aggregate := Except.ok [5, 6]
  count_documents := Except.ok 42

/-- A driver stub whose `find` raises a driver-level error. -/
def colBad : Collection Nat where
  find := Except.error "boom"
  find_one := Except.ok (some 7)
  insert_one := Except.ok wAckOnly
  insert_many := Except.ok wIns3
  update_one := Except.ok wAckOnly
  update_many := Except.ok wIns3
  delete_one := Except.ok wAckOnly
  delete_many := Except.ok wIns3
  replace_one := Except.ok wAckOnly
  aggregate := Except.ok [5, 6]
  count_documents := Except.ok 42

/-- A fresh (unexecuted) cursor over collection `"c"` with the given
operation kind, on an open connection. -/
def freshCursor (op : String) : CursorState Nat :=
  { collectionName := "c", operation := op, connectionClosed := false,
    executed := false, result := none }

/-! ## C5 — exactly-once execution -/

/-- C5: for every cursor whose first `execute()` succeeds, a second
`execute()` is a no-op returning the same cursor: it performs no driver
call, leaves the state unchanged, and the executed flag has transitioned
false→true exactly once (the single successful call made exactly one
driver invocation, of the cursor's own operation). -/
theorem execute_exactly_once {Doc : Type} (col : Collection Doc)
    (c0 c1 : CursorState Doc) (tr : List String) (h0 : c0.executed = false)
    (h : Cursor.execute col c0 = (c1, none, tr)) :
    Cursor.execute col c1 = (c1, none, []) ∧ c1.executed = true ∧
      tr = [c0.operation] := by
  by_cases hcl : c0.connectionClosed = true
  · simp [Cursor.execute, h0, hcl] at h
  · rcases hd : dispatch col c0.operation with _ | r
    · simp [Cursor.execute, h0, hcl, hd] at h
    · cases r with
      | ok v =>
        simp only [Cursor.execute, h0, hcl, hd, Bool.false_eq_true, if_false,
          Prod.mk.injEq] at h
        obtain ⟨h1, -, h3⟩ := h
        subst h1
        refine ⟨?_, rfl, h3.symm⟩
        simp [Cursor.execute]
      | error e =>
        simp [Cursor.execute, h0, hcl, hd] at h

/-- C5 witness: concrete run on the stub driver with a fresh `find`
cursor. -/
theorem execute_exactly_once_witness :
    Cursor.execute colStub
        { collectionName := "c", operation := "find", connectionClosed := false,
          executed := true, result := some (RawResult.iter [5, 6]) } =
      ({ collectionName := "c", operation := "find", connectionClosed := false,
         executed := true, result := some (RawResult.iter [5, 6]) }, none, []) ∧
    ({ collectionName := "c", operation := "find", connectionClosed := false,
       executed := true, result := some (RawResult.iter [5, 6]) } :
        CursorState Nat).executed = true ∧
    ["find"] = ["find"] :=
  execute_exactly_once colStub (freshCursor "find") _ ["find"] rfl rfl

/-! ## C9 — failed executions mutate nothing and are retryable -/

/-- C9: whenever `execute()` raises (unknown operation, closed connection,
or a driver-level failure), the cursor state is left exactly as it was —
in particular the executed flag is still `false` and the stored raw result
unchanged — and re-invoking `execute()` repeats the whole attempt with the
identical outcome, including the driver dispatch.  The exactly-once
guarantee therefore applies only to successful executions. -/
theorem execute_failure_retryable {Doc : Type} (col : Collection Doc)
    (c c' : CursorState Doc) (e : PyError) (tr : List String)
    (h : Cursor.execute col c = (c', some e, tr)) :
    c' = c ∧ c.executed = false ∧ c'.result = c.result ∧
      Cursor.execute col c' = (c', some e, tr) := by
  have hex : c.executed = false := by
    by_contra hx
    rw [Bool.not_eq_false] at hx
    simp [Cursor.execute, hx] at h
  by_cases hcl : c.connectionClosed = true
  · simp only [Cursor.execute, hex, hcl, Bool.false_eq_true, if_false, if_true,
      Prod.mk.injEq] at h
    obtain ⟨h1, h2, h3⟩ := h
    subst h1
    exact ⟨rfl, hex, rfl, by simp [Cursor.execute, hex, hcl, h2, h3]⟩
  · rcases hd : dispatch col c.operation with _ | r
    · simp only [Cursor.execute, hex, hcl, hd, Bool.false_eq_true, if_false,
        Prod.mk.injEq] at h
      obtain ⟨h1, h2, h3⟩ := h
      subst h1
      exact ⟨rfl, hex, rfl, by simp [Cursor.execute, hex, hcl, hd, h2, h3]⟩
    · cases r with
      | ok v => simp [Cursor.execute, hex, hcl, hd] at h
      | error de =>
        simp only [Cursor.execute, hex, hcl, hd, Bool.false_eq_true, if_false,
          Prod.mk.injEq] at h
        obtain ⟨h1, h2, h3⟩ := h
        subst h1
        exact ⟨rfl, hex, rfl, by simp [Cursor.execute, hex, hcl, hd, h2, h3]⟩

/-- C9 witness: a driver-level `find` failure on the stub driver leaves
the fresh cursor unchanged and the retry re-dispatches identically. -/
theorem execute_failure_retryable_witness :
    freshCursor "find" = freshCursor "find" ∧
    (freshCursor "find").executed = false ∧
    (freshCursor "find").result = (freshCursor "find").result ∧
    Cursor.execute colBad (freshCursor "find") =
      (freshCursor "find",
        some (PyError.programmingError "Operation failed: boom"), ["find"]) :=
  execute_failure_retryable colBad (freshCursor "find") (freshCursor "find")
    (PyError.programmingError "Operation failed: boom") ["find"] rfl

/-! ## C6 — the dispatch table is exhaustive over exactly its kinds -/

/-- The operation kinds the `elif` chain of `Cursor.execute` recognises,
in source order. -/
def supportedKinds : List String :=
  ["find", "find_one", "insert_one", "insert_many", "update_one",
   "update_many", "delete_one", "delete_many", "replace_one", "aggregate",
   "count_documents"]

/-- The operation-kind set exactly as the specification's claim words it
(`{find, find_one, insert_one, insert_many, update_one, update_many,
delete_one, delete_many, replace_one, aggregate, count}`), kept verbatim
for comparison with the source dispatch. -/
def specClaimedKinds : List String :=
  ["find", "find_one", "insert_one", "insert_many", "update_one",
   "update_many", "delete_one", "delete_many", "replace_one", "aggregate",
   "count"]

/-- Every method of the driver stub succeeds. -/
def Collection.totalOk {Doc : Type} (col : Collection Doc) : Prop :=
  (∃ a, col.find = Except.ok a) ∧ (∃ a, col.find_one = Except.ok a) ∧
  (∃ a, col.insert_one = Except.ok a) ∧ (∃ a, col.insert_many = Except.ok a) ∧
  (∃ a, col.update_one = Except.ok a) ∧ (∃ a, col.update_many = Except.ok a) ∧
  (∃ a, col.delete_one = Except.ok a) ∧ (∃ a, col.delete_many = Except.ok a) ∧
  (∃ a, col.replace_one = Except.ok a) ∧ (∃ a, col.aggregate = Except.ok a) ∧
  (∃ a, col.count_documents = Except.ok a)

/-- C6 amended: on a fresh cursor over a driver whose methods succeed,
`execute()` succeeds — dispatching exactly one driver call, namely the
operation's own — for every kind in the source's table
{find, find_one, insert_one, insert_many, update_one, update_many,
delete_one, delete_many, replace_one, aggregate, count_documents}, and
raises the unknown-operation `ProgrammingError` (wrapped by the blanket
handler into `Operation failed: Unknown operation: ...`) with no driver
call exactly when the kind is outside that set. -/
theorem execute_kind_dispatch {Doc : Type} (col : Collection Doc)
    (c : CursorState Doc) (hex : c.executed = false)
    (hcl : c.connectionClosed = false) (hok : Collection.totalOk col) :
    (c.operation ∈ supportedKinds →
      (Cursor.execute col c).2.1 = none ∧
      (Cursor.execute col c).2.2 = [c.operation]) ∧
    (c.operation ∉ supportedKinds →
      (Cursor.execute col c).2.1 =
        some (PyError.programmingError
          ("Operation failed: Unknown operation: " ++ c.operation)) ∧
      (Cursor.execute col c).2.2 = []) := by
  obtain ⟨⟨a1, e1⟩, ⟨a2, e2⟩, ⟨a3, e3⟩, ⟨a4, e4⟩, ⟨a5, e5⟩, ⟨a6, e6⟩, ⟨a7, e7⟩,
    ⟨a8, e8⟩, ⟨a9, e9⟩, ⟨a10, e10⟩, ⟨a11, e11⟩⟩ := hok
  constructor
  · intro hmem
    simp only [supportedKinds, List.mem_cons, List.not_mem_nil, or_false] at hmem
    rcases hmem with h | h | h | h | h | h | h | h | h | h | h <;>
      simp [Cursor.execute, dispatch, Except.map, hex, hcl, h, e1, e2, e3, e4,
        e5, e6, e7, e8, e9, e10, e11]
  · intro hmem
    simp only [supportedKinds, List.mem_cons, List.not_mem_nil, or_false,
      not_or] at hmem
    obtain ⟨n1, n2, n3, n4, n5, n6, n7, n8, n9, n10, n11⟩ := hmem
    simp [Cursor.execute, dispatch, hex, hcl, n1, n2, n3, n4, n5, n6, n7, n8,
      n9, n10, n11]

/-- C6 witness: the supported kind `count_documents` dispatches and
succeeds on the stub driver. -/
theorem execute_kind_dispatch_witness :
    (Cursor.execute colStub (freshCursor "count_documents")).2.1 = none ∧
    (Cursor.execute colStub (freshCursor "count_documents")).2.2 =
      ["count_documents"] :=
  (execute_kind_dispatch colStub (freshCursor "count_documents") rfl rfl
      ⟨⟨_, rfl⟩, ⟨_, rfl⟩, ⟨_, rfl⟩, ⟨_, rfl⟩, ⟨_, rfl⟩, ⟨_, rfl⟩, ⟨_, rfl⟩,
        ⟨_, rfl⟩, ⟨_, rfl⟩, ⟨_, rfl⟩, ⟨_, rfl⟩⟩).1 (by decide)

/-- C6 counterexample: the kind `count`, which the claim's set contains,
is rejected by the dispatch with the unknown-operation error, while the
kind actually dispatched is `count_documents`, which the claim's set does
not contain. -/
theorem execute_count_kind_counterexample :
    "count" ∈ specClaimedKinds ∧
    (Cursor.execute colStub (freshCursor "count")).2.1 =
      some (PyError.programmingError
        "Operation failed: Unknown operation: count") ∧
    "count_documents" ∉ specClaimedKinds ∧
    (Cursor.execute colStub (freshCursor "count_documents")).2.1 = none :=
  ⟨by decide, rfl, by decide, rfl⟩

/-! ## C3 — fetch behaviour of `aggregate` cursors -/

/-- An executed `aggregate` cursor over `Nat` documents whose lazy result
sequence still holds the single document `5`. -/
def cAgg : CursorState Nat :=
  { collectionName := "c", operation := "aggregate", connectionClosed := false,
    executed := true, result := some (RawResult.iter [5]) }

/-- The same cursor state with operation kind `find`. -/
def cFindOne5 : CursorState Nat :=
  { cAgg with operation := "find" }

/-- C3 amended: for every executed `aggregate` cursor, `fetchone` returns
the raw result object itself — without pulling an element or applying the
document factory, and without advancing the sequence — and `fetchall` /
`fetchmany(n)` return the empty list; `aggregate` is treated by the fetch
methods like the write kinds, not like `find`. -/
theorem aggregate_fetch_behaviour {Doc Out : Type} (col : Collection Doc)
    (factory : Doc → Out) (c : CursorState Doc) (r : RawResult Doc)
    (hop : c.operation = "aggregate") (hex : c.executed = true)
    (hr : c.result = some r) :
    Cursor.fetchone col factory c = (c, Except.ok (FetchedValue.raw r)) ∧
    Cursor.fetchall col factory c =
      (c, Except.ok ([] : List (FetchedValue Doc Out))) ∧
    ∀ n, Cursor.fetchmany col factory n c =
      (c, Except.ok ([] : List (FetchedValue Doc Out))) := by
  have h1 : ¬(c.operation = "find_one") := by simp [hop]
  have h2 : ¬(c.operation = "find") := by simp [hop]
  refine ⟨?_, ?_, fun n => ?_⟩ <;>
    simp [Cursor.fetchone, Cursor.fetchall, Cursor.fetchmany, hex, h1, h2, hr]

/-- C3 witness: the amended behaviour evaluated on the concrete executed
`aggregate` cursor `cAgg`. -/
theorem aggregate_fetch_behaviour_witness :
    Cursor.fetchone colStub (fun d => d) cAgg =
      (cAgg, Except.ok (FetchedValue.raw (RawResult.iter [5]))) ∧
    Cursor.fetchall colStub (fun d => d) cAgg =
      (cAgg, Except.ok ([] : List (FetchedValue Nat Nat))) ∧
    ∀ n, Cursor.fetchmany colStub (fun d => d) n cAgg =
      (cAgg, Except.ok ([] : List (FetchedValue Nat Nat))) :=
  aggregate_fetch_behaviour colStub (fun d => d) cAgg (RawResult.iter [5])
    rfl rfl rfl

/-- C3 counterexample: on the executed `aggregate` cursor `cAgg` holding
the pending document `5`, a `find` cursor in the identical state pulls and
factory-maps the element, but the `aggregate` cursor's `fetchone` returns
the raw sequence object instead of the mapped element, and its `fetchall`
returns `[]` instead of the mapped elements — refuting "same behaviour as
for kind find". -/
theorem aggregate_fetch_counterexample :
    (Cursor.fetchone colStub (fun d => d) cFindOne5).2 =
      Except.ok (FetchedValue.mapped 5) ∧
    (Cursor.fetchone colStub (fun d => d) cAgg).2 =
      Except.ok (FetchedValue.raw (RawResult.iter [5])) ∧
    FetchedValue.raw (RawResult.iter [5]) ≠
      (FetchedValue.mapped 5 : FetchedValue Nat Nat) ∧
    (Cursor.fetchall colStub (fun d => d) cFindOne5).2 =
      Except.ok [FetchedValue.mapped 5] ∧
    (Cursor.fetchall colStub (fun d => d) cAgg).2 =
      Except.ok ([] : List (FetchedValue Nat Nat)) := by
  refine ⟨rfl, rfl, ?_, rfl, rfl⟩
  decide

/-! ## C7 — `rowcount` semantics -/

/-- C7: `rowcount` is −1 before execution (for every kind); after
execution, for the `*_many` kinds it probes the write result's count
attributes in the fixed order inserted → modified → deleted → 0 and
returns the first one present; for the single-document write kinds it
returns 1 when the write was acknowledged; and for `count_documents` it
returns the stored integer itself. -/
theorem rowcount_spec {Doc : Type} (c : CursorState Doc) :
    (c.executed = false → Cursor.rowcount c = some (-1)) ∧
    (∀ w : WriteResult, c.executed = true →
      (c.operation = "insert_many" ∨ c.operation = "update_many" ∨
        c.operation = "delete_many") →
      c.result = some (RawResult.write w) →
      ((∀ k, w.inserted_count = some k → Cursor.rowcount c = some k) ∧
       (w.inserted_count = none → ∀ k, w.modified_count = some k →
         Cursor.rowcount c = some k) ∧
       (w.inserted_count = none → w.modified_count = none →
         ∀ k, w.deleted_count = some k → Cursor.rowcount c = some k) ∧
       (w.inserted_count = none → w.modified_count = none →
         w.deleted_count = none → Cursor.rowcount c = some 0))) ∧
    (∀ w : WriteResult, c.executed = true →
      (c.operation = "insert_one" ∨ c.operation = "update_one" ∨
        c.operation = "delete_one" ∨ c.operation = "replace_one") →
      c.result = some (RawResult.write w) → w.acknowledged = true →
      Cursor.rowcount c = some 1) ∧
    (∀ n : Int, c.executed = true → c.operation = "count_documents" →
      c.result = some (RawResult.countVal n) → Cursor.rowcount c = some n) := by
  refine ⟨fun hex => by simp [Cursor.rowcount, hex], ?_, ?_, ?_⟩
  · intro w hex hmem hr
    refine ⟨fun k hk => ?_, fun hi k hk => ?_, fun hi hm k hk => ?_,
      fun hi hm hd => ?_⟩ <;>
      rcases hmem with h | h | h <;>
      simp_all [Cursor.rowcount]
  · intro w hex hmem hr hack
    rcases hmem with h | h | h | h <;> simp [Cursor.rowcount, hex, h, hr, hack]
  · intro n hex hop hr
    simp [Cursor.rowcount, hex, hop, hr]

/-- C7 witness: an executed `insert_many` cursor whose write result
exposes `inserted_count = 3` reports `rowcount = 3`; an unexecuted cursor
reports −1. -/
theorem rowcount_spec_witness :
    Cursor.rowcount
        ({ collectionName := "c", operation := "insert_many",
           connectionClosed := false, executed := true,
           result := some (RawResult.write wIns3) } : CursorState Nat) =
      some 3 ∧
    Cursor.rowcount (freshCursor "find") = some (-1) :=
  ⟨((rowcount_spec _).2.1 wIns3 rfl (Or.inl rfl) rfl).1 3 rfl,
   (rowcount_spec _).1 rfl⟩

/-! ## Pool environments for concrete runs -/

/-- Environment in which every connection passes the liveness probe. -/
def aliveAll : Nat → Bool := fun _ => true

/-- Environment in which every connection fails the liveness probe. -/
def deadAll : Nat → Bool := fun _ => false

/-- Environment in which no connection reports itself closed. -/
def noneClosed : Nat → Bool := fun _ => false

/-- Environment in which every connection reports itself closed. -/
def allClosed : Nat → Bool := fun _ => true

/-! ## C1 — construction never seeds the idle queue -/

/-- C1 (the code evaluated at the failing input `minconn = 1, maxconn = 2`
followed by one acquire): construction runs `_create_connection()` once
and the counter reaches 1, but the connection the loop built is discarded
— `__init__` never enqueues it — so the idle queue is empty; the first
acquire therefore finds no idle connection and creates a brand-new second
connection (fresh id 1, counter = 2), contradicting "acquire can obtain
one of them from the idle set without creating a new connection". -/
theorem pool_construction_discards_initial_connections :
    ConnectionPool.mkPool 1 2 =
      Except.ok
        { maxconn := 2, pool := [], created := 1, closed := false, nextId := 1 } ∧
    ConnectionPool.getconn aliveAll
        { maxconn := 2, pool := [], created := 1, closed := false, nextId := 1 } =
      ({ maxconn := 2, pool := [], created := 2, closed := false, nextId := 2 },
        Except.ok 1) :=
  ⟨rfl, rfl⟩

/-! ## C2 — recovery from a dead idle connection -/

/-- C2 amended: when acquire obtains an idle connection whose liveness
probe fails, it discards it and — provided the created counter is still
below the maximum — creates a replacement and returns it without
surfacing an error; but the discard does not decrement the counter, so
when the counter is at the maximum the replacement creation itself fails
and its `OperationalError` surfaces to the caller of acquire. -/
theorem getconn_dead_idle (alive : Nat → Bool) (s : PoolState) (c : Nat)
    (rest : List Nat) (hcl : s.closed = false) (hq : s.pool = c :: rest)
    (hdead : alive c = false) :
    (s.created < (s.maxconn : Int) →
      ConnectionPool.getconn alive s =
        ({ s with pool := rest, created := s.created + 1, nextId := s.nextId + 1 },
          Except.ok s.nextId)) ∧
    ((s.maxconn : Int) ≤ s.created →
      ConnectionPool.getconn alive s =
        ({ s with pool := rest },
          Except.error
            (PoolErr.operationalError "Maximum number of connections reached"))) := by
  constructor <;> intro hcap
  · simp [ConnectionPool.getconn, ConnectionPool.createConnection, hcl, hq,
      hdead, not_le.mpr hcap]
  · simp [ConnectionPool.getconn, ConnectionPool.createConnection, hcl, hq,
      hdead, hcap]

/-- C2 witness: a pool with maximum 2, one (dead) idle connection and
counter 1 recovers by replacement, no error surfacing. -/
theorem getconn_dead_idle_witness :
    ConnectionPool.getconn deadAll
        { maxconn := 2, pool := [0], created := 1, closed := false, nextId := 1 } =
      ({ maxconn := 2, pool := [], created := 2, closed := false, nextId := 2 },
        Except.ok 1) :=
  (getconn_dead_idle deadAll
      { maxconn := 2, pool := [0], created := 1, closed := false, nextId := 1 }
      0 [] rfl rfl rfl).1 (by decide)

/-- C2 counterexample, on a reachable scenario for a pool with maximum 1:
construct with minimum 0, acquire (creates connection 0), release it back
(idle queue `[0]`), then let it go dead.  The next acquire takes the dead
connection, the probe fails, and — because the discard never decremented
the counter — the replacement creation raises `OperationalError`, which
surfaces to the caller, even though the caller holds no connection and the
only counted connection is the discarded dead one, i.e. the pool could
hold a (fresh) connection for the caller within its maximum.  A single
dead idle connection thus does cause acquire to fail. -/
theorem getconn_dead_idle_counterexample :
    ConnectionPool.mkPool 0 1 =
      Except.ok
        { maxconn := 1, pool := [], created := 0, closed := false, nextId := 0 } ∧
    ConnectionPool.getconn aliveAll
        { maxconn := 1, pool := [], created := 0, closed := false, nextId := 0 } =
      ({ maxconn := 1, pool := [], created := 1, closed := false, nextId := 1 },
        Except.ok 0) ∧
    ConnectionPool.putconn noneClosed
        { maxconn := 1, pool := [], created := 1, closed := false, nextId := 1 } 0 =
      ({ maxconn := 1, pool := [0], created := 1, closed := false, nextId := 1 },
        PutOutcome.requeued) ∧
    ConnectionPool.getconn deadAll
        { maxconn := 1, pool := [0], created := 1, closed := false, nextId := 1 } =
      ({ maxconn := 1, pool := [], created := 1, closed := false, nextId := 1 },
        Except.error
          (PoolErr.operationalError "Maximum number of connections reached")) :=
  ⟨rfl, rfl, rfl, rfl⟩

/-! ## C4 — the created-connections counter never exceeds the maximum -/

/-- `_create_connection` succeeds only below capacity, and then increments
the counter by one while leaving the maximum unchanged. -/
theorem createConnection_ok {s s' : PoolState} {c : Nat}
    (h : ConnectionPool.createConnection s = Except.ok (s', c)) :
    s'.maxconn = s.maxconn ∧ s'.created = s.created + 1 ∧
      s.created < (s.maxconn : Int) := by
  unfold ConnectionPool.createConnection at h
  split at h
  · simp at h
  · split at h
    · simp at h
    · rename_i hcap
      simp only [Except.ok.injEq, Prod.mk.injEq] at h
      obtain ⟨h1, -⟩ := h
      subst h1
      exact ⟨rfl, rfl, lt_of_not_le hcap⟩

/-- Each pool call preserves `created ≤ maxconn` and never changes the
maximum. -/
theorem step_preserves_capacity (s : PoolState) (op : PoolOp)
    (h : s.created ≤ (s.maxconn : Int)) :
    (PoolState.step s op).created ≤ (s.maxconn : Int) ∧
      (PoolState.step s op).maxconn = s.maxconn := by
  cases op with
  | acquire alive =>
    simp only [PoolState.step, ConnectionPool.getconn]
    split
    · exact ⟨h, rfl⟩
    · split
      · split
        · exact ⟨h, rfl⟩
        · split
          · rename_i s2 c2 hcc
            obtain ⟨hm, hc, hlt⟩ := createConnection_ok hcc
            simp only [PoolState.created, PoolState.maxconn] at hm hc hlt
            refine ⟨show s2.created ≤ (s.maxconn : Int) by omega,
              show s2.maxconn = s.maxconn from hm⟩
          · exact ⟨h, rfl⟩
      · split
        · rename_i s2 c2 hcc
          obtain ⟨hm, hc, hlt⟩ := createConnection_ok hcc
          refine ⟨show s2.created ≤ (s.maxconn : Int) by omega,
            show s2.maxconn = s.maxconn from hm⟩
        · exact ⟨h, rfl⟩
        · exact ⟨h, rfl⟩
  | release connClosed conn =>
    simp only [PoolState.step, ConnectionPool.putconn]
    split
    · exact ⟨h, rfl⟩
    · split
      · exact ⟨show s.created - 1 ≤ (s.maxconn : Int) by omega, rfl⟩
      · split
        · exact ⟨h, rfl⟩
        · exact ⟨show s.created - 1 ≤ (s.maxconn : Int) by omega, rfl⟩
  | closeAll =>
    exact ⟨show (0 : Int) ≤ (s.maxconn : Int) by omega, rfl⟩

/-- `created ≤ maxconn` is preserved by every sequence of pool calls, and
the maximum never changes. -/
theorem run_preserves_capacity (ops : List PoolOp) (s : PoolState)
    (h : s.created ≤ (s.maxconn : Int)) :
    (PoolState.run s ops).created ≤ (s.maxconn : Int) ∧
      (PoolState.run s ops).maxconn = s.maxconn := by
  induction ops generalizing s with
  | nil => exact ⟨h, rfl⟩
  | cons op ops ih =>
    obtain ⟨h1, h2⟩ := step_preserves_capacity s op h
    obtain ⟨g1, g2⟩ := ih (PoolState.step s op) (by rw [h2]; exact h1)
    have hrun : PoolState.run s (op :: ops) =
        PoolState.run (PoolState.step s op) ops := rfl
    rw [hrun]
    exact ⟨by rw [← h2]; exact g1, by rw [g2, h2]⟩

/-- The constructor loop keeps `created ≤ maxconn` and the maximum. -/
theorem initLoop_capacity (n : Nat) (s s' : PoolState)
    (h : s.created ≤ (s.maxconn : Int))
    (heq : ConnectionPool.initLoop n s = Except.ok s') :
    s'.created ≤ (s'.maxconn : Int) ∧ s'.maxconn = s.maxconn := by
  induction n generalizing s with
  | zero =>
    simp only [ConnectionPool.initLoop, Except.ok.injEq] at heq
    subst heq
    exact ⟨h, rfl⟩
  | succ n ih =>
    unfold ConnectionPool.initLoop at heq
    split at heq
    · rename_i s1 c1 hcc
      obtain ⟨hm, hc, hlt⟩ := createConnection_ok hcc
      obtain ⟨g1, g2⟩ := ih s1 (by rw [hm, hc]; omega) heq
      exact ⟨g1, by rw [g2, hm]⟩
    · simp at heq

/-- C4: for every pool constructed with `minconn = m, maxconn = M` that
construction completes, and every sequence of acquire / release /
close_all calls (each call atomic, in any order and with any connection
health environment), the created-connections counter satisfies
`created ≤ M` after the sequence — since the sequence is arbitrary, at
every intermediate point of every run. -/
theorem pool_capacity_invariant (m M : Nat) (s0 : PoolState)
    (hinit : ConnectionPool.mkPool m M = Except.ok s0) (ops : List PoolOp) :
    (PoolState.run s0 ops).created ≤ (M : Int) := by
  obtain ⟨h1, h2⟩ := initLoop_capacity m _ s0 (by simp) hinit
  simp only at h2
  obtain ⟨g1, -⟩ := run_preserves_capacity ops s0 (by rw [h2] at h1 ⊢; exact h1)
  rw [h2] at g1
  exact g1

/-- C4 witness: a concrete pool (minimum 1, maximum 2) run through an
acquire, a release and a close_all stays within `created ≤ 2`. -/
theorem pool_capacity_invariant_witness :
    (PoolState.run
        { maxconn := 2, pool := [], created := 1, closed := false, nextId := 1 }
        [PoolOp.acquire aliveAll, PoolOp.release noneClosed 1,
          PoolOp.closeAll]).created ≤ (2 : Int) :=
  pool_capacity_invariant 1 2
    { maxconn := 2, pool := [], created := 1, closed := false, nextId := 1 }
    rfl [PoolOp.acquire aliveAll, PoolOp.release noneClosed 1, PoolOp.closeAll]

/-! ## C8 — release (`putconn`) case behaviour -/

/-- C8: `putconn` behaves per the four documented cases: on a closed pool
the connection is closed outright and not re-enqueued (queue and counter
untouched); a connection reporting itself closed decrements the counter
and never re-enters the queue; with the queue at capacity (`Full` raised
by `put_nowait`, possible only for a positive maximum) the connection is
closed and the counter decremented; otherwise the connection is enqueued
back as idle at the tail.  Every branch either re-enqueues the connection
or closes it (or it already reported closed), so no counted connection is
silently leaked by `putconn` itself. -/
theorem putconn_cases (connClosed : Nat → Bool) (s : PoolState) (conn : Nat) :
    (s.closed = true →
      ConnectionPool.putconn connClosed s conn = (s, PutOutcome.closedOutright)) ∧
    (s.closed = false → connClosed conn = true →
      ConnectionPool.putconn connClosed s conn =
        ({ s with created := s.created - 1 }, PutOutcome.droppedClosed)) ∧
    (s.closed = false → connClosed conn = false →
      (s.maxconn = 0 ∨ s.pool.length < s.maxconn) →
      ConnectionPool.putconn connClosed s conn =
        ({ s with pool := s.pool ++ [conn] }, PutOutcome.requeued)) ∧
    (s.closed = false → connClosed conn = false → 0 < s.maxconn →
      s.maxconn ≤ s.pool.length →
      ConnectionPool.putconn connClosed s conn =
        ({ s with created := s.created - 1 }, PutOutcome.closedFull)) := by
  refine ⟨fun h1 => by simp [ConnectionPool.putconn, h1],
    fun h1 h2 => by simp [ConnectionPool.putconn, h1, h2],
    fun h1 h2 h3 => by simp [ConnectionPool.putconn, h1, h2, h3],
    fun h1 h2 h3 h4 => ?_⟩
  have hfull : ¬(s.maxconn = 0 ∨ s.pool.length < s.maxconn) := by omega
  simp [ConnectionPool.putconn, h1, h2, hfull]

/-- C8 witness: releasing a connection that reports itself closed, on an
open pool with one counted connection, decrements the counter to zero and
leaves the queue empty. -/
theorem putconn_cases_witness :
    ConnectionPool.putconn allClosed
        { maxconn := 2, pool := [], created := 1, closed := false, nextId := 1 } 7 =
      ({ maxconn := 2, pool := [], created := 1 - 1, closed := false, nextId := 1 },
        PutOutcome.droppedClosed) :=
  (putconn_cases allClosed
      { maxconn := 2, pool := [], created := 1, closed := false, nextId := 1 }
      7).2.1 rfl rfl

/-! ## C10 — the closed flag of a Connection is never cleared -/

/-- Both lifecycle methods preserve a set closed flag: `connect` never
touches `self._closed` and `close` only sets it. -/
theorem stepOp_preserves_closed (s : ConnState) (op : ConnOp)
    (h : s.closed = true) : (ConnState.stepOp s op).closed = true := by
  cases op with
  | connectOp hdl d =>
    simp only [ConnState.stepOp, Connection.connect]
    split
    · exact h
    · exact h
  | closeOp =>
    simp only [ConnState.stepOp, Connection.close]
    split
    · rfl
    · rfl

/-- A set closed flag survives any sequence of lifecycle calls. -/
theorem runOps_preserves_closed (ops : List ConnOp) (s : ConnState)
    (h : s.closed = true) : (ConnState.runOps s ops).closed = true := by
  induction ops generalizing s with
  | nil => exact h
  | cons op ops ih => exact ih (ConnState.stepOp s op) (stepOp_preserves_closed s op h)

/-- C10: after `close()`, a `connect()` call does open a fresh driver
handle and store a database reference, but the closed flag stays `true`;
and after the close and any further sequence of connect/close calls, the
flag is still `true`, so `execute`, `collection`, `database` and `client`
all keep failing with the closed-connection `InterfaceError`. -/
theorem connection_closed_flag_permanent (s : ConnState) (hdl d : Nat)
    (ops : List ConnOp) (cn opName : String) :
    (Connection.connect hdl d (Connection.close s)).closed = true ∧
    (Connection.connect hdl d (Connection.close s)).client = some hdl ∧
    (Connection.connect hdl d (Connection.close s)).db = some d ∧
    (ConnState.runOps (Connection.close s) ops).closed = true ∧
    Connection.executeOp (ConnState.runOps (Connection.close s) ops) cn opName =
      Except.error (PyError.interfaceError "Connection is closed") ∧
    Connection.collectionAcc (ConnState.runOps (Connection.close s) ops) cn =
      Except.error (PyError.interfaceError "Connection is closed") ∧
    Connection.databaseAcc (ConnState.runOps (Connection.close s) ops) =
      Except.error (PyError.interfaceError "Connection is closed") ∧
    Connection.clientAcc (ConnState.runOps (Connection.close s) ops) =
      Except.error (PyError.interfaceError "Connection is closed") := by
  have hclosed : (Connection.close s).closed = true := by
    simp only [Connection.close]
    split
    · rfl
    · rfl
  have hclient : (Connection.close s).client = none := by
    simp only [Connection.close]
    split
    · rfl
    · rename_i hs
      simp only [Option.isSome] at hs
      split at hs
      · simp at hs
      · rename_i heq
        exact heq
  have hrun : (ConnState.runOps (Connection.close s) ops).closed = true :=
    runOps_preserves_closed ops (Connection.close s) hclosed
  refine ⟨?_, ?_, ?_, hrun, ?_, ?_, ?_, ?_⟩
  · simp [Connection.connect, hclient, hclosed]
  · simp [Connection.connect, hclient]
  · simp [Connection.connect, hclient]
  · simp [Connection.executeOp, hrun]
  · simp [Connection.collectionAcc, hrun]
  · simp [Connection.databaseAcc, hrun]
  · simp [Connection.clientAcc, hrun]

end GrepxMongo
